import Mathlib

/-!
Verification of the time-series metadata and observation store service.

This file gives a shallow embedding of the repository's Filter/Query engine
(app/crud/value_data.py), the value-data endpoints (app/api/v1/endpoints/value_data.py),
the meta-series soft delete (app/crud/meta_series.py), the dependency listing
(app/crud/dependencies.py with app/schemas/filters.py), and the health endpoint
(app/api/v1/endpoints/system.py with the three health-check functions in app/core),
and proves or refutes the specification claims about them.

Modelling conventions:
- dates are integers (days); instants (datetime.now, updated_at) are integers
  (seconds for the relative-time arithmetic, abstract ticks elsewhere);
- numeric observation values are rationals (the code moves between Decimal and
  Float64; their ordering semantics on the exercised inputs coincide);
- the external pytimeparse2.parse function is a parameter of type
  String -> Option Int (seconds);
- Python optional values are Option; Python truthiness of optionals is made
  explicit (none, empty string, empty list and false are all falsy);
- the ClickHouse store is a list of rows in insertion order; a SELECT with
  LIMIT 1 and no ORDER BY is modelled as the first matching row;
- SQL query fragments built by the code are reified as small inductive
  condition types together with an evaluation function, so that the built
  query (conditions plus named-parameter dictionary) is a first-class value
  exactly mirroring what the code assembles.
-/

/-- Python truthiness of an optional string: none and the empty string are falsy. -/
def optStrTruthy : Option String → Bool
  | none => false
  | some s => s ≠ ""

/-- Python truthiness of an optional bool: none and false are falsy. -/
def optBoolTruthy : Option Bool → Bool
  | none => false
  | some b => b

/-- Python truthiness of an optional list: none and the empty list are falsy. -/
def optListTruthy {α : Type} : Option (List α) → Bool
  | none => false
  | some l => !l.isEmpty

/-- One observation row of the ClickHouse value_data table
(app/models/value_data.py): key (series_id, timestamp), a decimal value and
two bookkeeping instants. -/
structure valueData where
  series_id : Int
  timestamp : Int
  value : ℚ
  created_at : Int := 0
  updated_at : Int := 0
deriving DecidableEq, Repr

/-- The flat filter object of app/schemas/filters.py (valueDataFilter).
The two ticker_source __in fields are read by the CRUD layer
(app/crud/value_data.py) although the HTTP filter schema does not declare
them; they are modelled as fields that the schema layer always leaves at
none. -/
structure valueDataFilter where
  series_id : Option Int := none
  series_id__in : Option (List Int) := none
  timestamp__gte : Option Int := none
  timestamp__lte : Option Int := none
  timestamp__ago : Option String := none
  is_latest : Option Bool := none
  value__gte : Option ℚ := none
  value__lte : Option ℚ := none
  series_name__ilike : Option String := none
  series_name__in : Option (List String) := none
  ticker__ilike : Option String := none
  is_active : Option Bool := none
  is_derived : Option Bool := none
  asset_class_name : Option String := none
  asset_class_name__in : Option (List String) := none
  sub_asset_class_name : Option String := none
  sub_asset_class_name__in : Option (List String) := none
  product_type_name : Option String := none
  product_type_name__in : Option (List String) := none
  data_type_name : Option String := none
  data_type_name__in : Option (List String) := none
  structure_type_name : Option String := none
  structure_type_name__in : Option (List String) := none
  market_segment_name : Option String := none
  market_segment_name__in : Option (List String) := none
  field_type_name : Option String := none
  field_type_name__in : Option (List String) := none
  ticker_source_name__in : Option (List String) := none
  ticker_source_code__in : Option (List String) := none
  order_by : Option (List String) := none
deriving DecidableEq

/-- A reified ClickHouse WHERE condition, as assembled by
crudValueData._build_clickhouse_conditions and get_multi_with_filters.
Series-id IN lists are inlined; the range conditions reference a named
query parameter. -/
inductive chCond where
  | seriesIdIn (ids : List Int)
  | tsGe (param : String)
  | tsLe (param : String)
  | valGe (param : String)
  | valLe (param : String)
deriving DecidableEq, Repr

/-- A ClickHouse query-parameter value: a Date or a Float64. -/
inductive chParam where
  | date (d : Int)
  | float (x : ℚ)
deriving DecidableEq, Repr

/-- Python dict assignment on an association list: replace the value at an
existing key in place, otherwise append the binding. -/
def dictSet (d : List (String × chParam)) (k : String) (v : chParam) : List (String × chParam) :=
  if d.any (fun p => p.1 == k) then
    d.map (fun p => if p.1 == k then (p.1, v) else p)
  else
    d ++ [(k, v)]

/-- Python dict lookup on an association list. -/
def dictGet (d : List (String × chParam)) (k : String) : Option chParam :=
  (d.find? (fun p => p.1 == k)).map Prod.snd

/-- The date of the instant (now - seconds), with the instant counted in
seconds since the epoch and dates in days: datetime.now() - timedelta(seconds)
followed by .date(). -/
def agoFloorDate (now seconds : Int) : Int :=
  (now - seconds).fdiv 86400

/-- crudValueData._build_clickhouse_conditions: build the list of WHERE
conditions and the named-parameter dictionary from the filter object.
pytimeparse2.parse is the parameter parse; now is the current instant in
seconds. -/
def build_clickhouse_conditions (parse : String → Option Int) (now : Int)
    (fo : valueDataFilter) : List chCond × List (String × chParam) :=
  let conditions : List chCond := []
  let params : List (String × chParam) := []
  let (conditions, params) :=
    match fo.series_id__in with
    | some ids => (conditions ++ [chCond.seriesIdIn ids], params)
    | none => (conditions, params)
  let (conditions, params) :=
    match fo.timestamp__ago with
    | some a =>
      match parse a with
      | some seconds_ago =>
        (conditions ++ [chCond.tsGe "timestamp__gte"],
         dictSet params "timestamp__gte" (chParam.date (agoFloorDate now seconds_ago)))
      | none => (conditions, params)
    | none => (conditions, params)
  let (conditions, params) :=
    match fo.timestamp__gte with
    | some g =>
      (conditions ++ [chCond.tsGe "timestamp__gte"],
       dictSet params "timestamp__gte" (chParam.date g))
    | none => (conditions, params)
  let (conditions, params) :=
    match fo.timestamp__lte with
    | some l =>
      (conditions ++ [chCond.tsLe "timestamp__lte"],
       dictSet params "timestamp__lte" (chParam.date l))
    | none => (conditions, params)
  let (conditions, params) :=
    match fo.value__gte with
    | some v =>
      (conditions ++ [chCond.valGe "value__gte"],
       dictSet params "value__gte" (chParam.float v))
    | none => (conditions, params)
  let (conditions, params) :=
    match fo.value__lte with
    | some v =>
      (conditions ++ [chCond.valLe "value__lte"],
       dictSet params "value__lte" (chParam.float v))
    | none => (conditions, params)
  (conditions, params)

/-- Evaluate one reified condition against a row, resolving the named
parameter in the parameter dictionary (a condition whose parameter is
missing matches nothing, as the query would fail). -/
def evalCond (params : List (String × chParam)) (r : valueData) : chCond → Bool
  | chCond.seriesIdIn ids => ids.contains r.series_id
  | chCond.tsGe p =>
    match dictGet params p with
    | some (chParam.date d) => decide (d ≤ r.timestamp)
    | _ => false
  | chCond.tsLe p =>
    match dictGet params p with
    | some (chParam.date d) => decide (r.timestamp ≤ d)
    | _ => false
  | chCond.valGe p =>
    match dictGet params p with
    | some (chParam.float x) => decide (x ≤ r.value)
    | _ => false
  | chCond.valLe p =>
    match dictGet params p with
    | some (chParam.float x) => decide (r.value ≤ x)
    | _ => false

/-- A row satisfies the WHERE clause when every condition holds (the code
joins the conditions with AND; the empty list is the 1=1 clause). -/
def evalConds (conds : List chCond) (params : List (String × chParam)) (r : valueData) : Bool :=
  conds.all (evalCond params r)

/-- One ORDER BY component: a field name and its direction. -/
structure orderSpec where
  fieldName : String
  desc : Bool
deriving DecidableEq, Repr

/-- crudValueData._build_order_by_clause: an absent or empty order_by list
defaults to timestamp descending; a leading "-" marks a descending field. -/
def build_order_by_clause (fo : valueDataFilter) : List orderSpec :=
  match fo.order_by with
  | none => [⟨"timestamp", true⟩]
  | some l =>
    if l.isEmpty then [⟨"timestamp", true⟩]
    else l.map (fun s =>
      if s.startsWith "-" then ⟨s.drop 1, true⟩ else ⟨s, false⟩)

/-- The sortable columns of value_data, as rationals so one comparison type
covers them all; a field name not on the table is given a constant key
(the real engine would reject the query, no claim exercises this). -/
def chFieldVal (r : valueData) : String → ℚ
  | "series_id" => (r.series_id : ℚ)
  | "timestamp" => (r.timestamp : ℚ)
  | "value" => r.value
  | "created_at" => (r.created_at : ℚ)
  | "updated_at" => (r.updated_at : ℚ)
  | _ => 0

/-- Lexicographic ORDER BY comparison over the parsed order components. -/
def orderLe (spec : List orderSpec) (a b : valueData) : Bool :=
  match spec with
  | [] => true
  | o :: rest =>
    let va := chFieldVal a o.fieldName
    let vb := chFieldVal b o.fieldName
    if va = vb then orderLe rest a b
    else if o.desc then decide (vb < va) else decide (va < vb)

/-- Stable insertion of a row into a sorted list. -/
def sortInsert (le : valueData → valueData → Bool) (r : valueData) :
    List valueData → List valueData
  | [] => [r]
  | x :: xs => if le r x then r :: x :: xs else x :: sortInsert le r xs

/-- Stable sort of the result rows (ClickHouse ORDER BY). -/
def sortRows (le : valueData → valueData → Bool) : List valueData → List valueData
  | [] => []
  | x :: xs => sortInsert le x (sortRows le xs)

/-- One ClickHouse scan: filter the table by the WHERE conditions and order
the surviving rows. -/
def chScan (store : List valueData) (conds : List chCond)
    (params : List (String × chParam)) (spec : List orderSpec) : List valueData :=
  sortRows (orderLe spec) (store.filter (evalConds conds params))

/-- One row of a lookup dimension table (app/models/lookup_tables.py): an id,
a unique name, and for the ticker-source dimension also a code. -/
structure lookupRow where
  id : Int
  name : String
  code : Option String := none
deriving DecidableEq, Repr

/-- One row of the meta_series Series Registry (app/models/meta_series.py),
restricted to the columns the Filter/Query engine reads. The CRUD layer
joins on a ticker_source_id column that the model does not declare; it is
modelled as an always-absent optional foreign key. -/
structure metaSeriesRow where
  series_id : Int
  series_name : String
  ticker : Option String := none
  is_active : Bool := true
  is_latest : Bool := true
  is_derived : Bool := false
  asset_class_id : Option Int := none
  sub_asset_class_id : Option Int := none
  product_type_id : Option Int := none
  data_type_id : Option Int := none
  structure_type_id : Option Int := none
  market_segment_id : Option Int := none
  flds_id : Option Int := none
  ticker_source_id : Option Int := none
  updated_at : Int := 0
deriving DecidableEq, Repr

/-- The relational store: the Series Registry and the eight Lookup Catalog
dimension tables. -/
structure pgDatabase where
  series : List metaSeriesRow := []
  asset_classes : List lookupRow := []
  sub_asset_classes : List lookupRow := []
  product_types : List lookupRow := []
  data_types : List lookupRow := []
  structure_types : List lookupRow := []
  market_segments : List lookupRow := []
  field_types : List lookupRow := []
  ticker_sources : List lookupRow := []
deriving DecidableEq

/-- The eight lookup dimensions. -/
inductive lookupDim where
  | asset_class
  | sub_asset_class
  | product_type
  | data_type
  | structure_type
  | market_segment
  | field_type
  | ticker_source
deriving DecidableEq, Repr

/-- The foreign-key column of meta_series for each lookup dimension
(the field_type dimension is referenced through flds_id). -/
def seriesDimFk (s : metaSeriesRow) : lookupDim → Option Int
  | lookupDim.asset_class => s.asset_class_id
  | lookupDim.sub_asset_class => s.sub_asset_class_id
  | lookupDim.product_type => s.product_type_id
  | lookupDim.data_type => s.data_type_id
  | lookupDim.structure_type => s.structure_type_id
  | lookupDim.market_segment => s.market_segment_id
  | lookupDim.field_type => s.flds_id
  | lookupDim.ticker_source => s.ticker_source_id

/-- The table holding each lookup dimension. -/
def dimTable (db : pgDatabase) : lookupDim → List lookupRow
  | lookupDim.asset_class => db.asset_classes
  | lookupDim.sub_asset_class => db.sub_asset_classes
  | lookupDim.product_type => db.product_types
  | lookupDim.data_type => db.data_types
  | lookupDim.structure_type => db.structure_types
  | lookupDim.market_segment => db.market_segments
  | lookupDim.field_type => db.field_types
  | lookupDim.ticker_source => db.ticker_sources

/-- The lookup row a series joins to in one dimension: the dimension's
primary key is unique, so an inner join on the foreign key yields at most
one row, and none when the foreign key is null or dangling. -/
def joinedLookup (db : pgDatabase) (s : metaSeriesRow) (dim : lookupDim) : Option lookupRow :=
  (seriesDimFk s dim).bind (fun i => (dimTable db dim).find? (fun l => l.id == i))

/-- Which lookup joins the metadata query needs, mirroring the joins_needed
dictionary of crudValueData._build_meta_series_conditions. -/
structure joinsNeeded where
  asset_class : Bool := false
  sub_asset_class : Bool := false
  product_type : Bool := false
  data_type : Bool := false
  structure_type : Bool := false
  market_segment : Bool := false
  field_type : Bool := false
  ticker_source : Bool := false
deriving DecidableEq, Repr

/-- Read one dimension's flag out of joinsNeeded. -/
def joinsNeeded.get (jn : joinsNeeded) : lookupDim → Bool
  | lookupDim.asset_class => jn.asset_class
  | lookupDim.sub_asset_class => jn.sub_asset_class
  | lookupDim.product_type => jn.product_type
  | lookupDim.data_type => jn.data_type
  | lookupDim.structure_type => jn.structure_type
  | lookupDim.market_segment => jn.market_segment
  | lookupDim.field_type => jn.field_type
  | lookupDim.ticker_source => jn.ticker_source

/-- A reified SQLAlchemy condition of the metadata-resolution query. A
lookup condition names its dimension and whether it tests the code column
(ticker_source_code__in) instead of the name column. -/
inductive metaCond where
  | seriesNameIlike (pat : String)
  | seriesNameIn (names : List String)
  | tickerIlike (pat : String)
  | isActiveEq (b : Bool)
  | isDerivedEq (b : Bool)
  | isLatestEq (b : Bool)
  | lookupNameIn (dim : lookupDim) (useCode : Bool) (vals : List String)
deriving DecidableEq, Repr

/-- crudValueData._build_series_name_in_condition: keep the non-empty
entries, lowercase then strip them, and form a lowercased IN condition when
anything remains. -/
def build_series_name_in_condition (series_names : List String) : Option metaCond :=
  let series_names_lower := (series_names.filter (fun n => n ≠ "")).map (fun n => n.toLower.trim)
  if series_names_lower.isEmpty then none
  else some (metaCond.seriesNameIn series_names_lower)

/-- Append a lookup __in condition and mark its join, for one entry of the
lookup_filter_map of crudValueData._build_meta_series_conditions. -/
def addLookupCond (dim : lookupDim) (useCode : Bool) (value : Option (List String))
    (acc : List metaCond × joinsNeeded)
    (mark : joinsNeeded → joinsNeeded) : List metaCond × joinsNeeded :=
  match value with
  | some vals => (acc.1 ++ [metaCond.lookupNameIn dim useCode vals], mark acc.2)
  | none => acc

/-- crudValueData._build_meta_series_conditions: build the metadata filter
conditions and record which lookup joins they need. Boolean predicates are
tested against none here (is not None), unlike has_metadata_filters. -/
def build_meta_series_conditions (fo : valueDataFilter) : List metaCond × joinsNeeded :=
  let acc : List metaCond × joinsNeeded := ([], {})
  let acc :=
    match fo.series_name__ilike with
    | some pat => (acc.1 ++ [metaCond.seriesNameIlike pat], acc.2)
    | none => acc
  let acc :=
    match fo.series_name__in with
    | some names =>
      match build_series_name_in_condition names with
      | some c => (acc.1 ++ [c], acc.2)
      | none => acc
    | none => acc
  let acc :=
    match fo.ticker__ilike with
    | some pat => (acc.1 ++ [metaCond.tickerIlike pat], acc.2)
    | none => acc
  let acc :=
    match fo.is_active with
    | some b => (acc.1 ++ [metaCond.isActiveEq b], acc.2)
    | none => acc
  let acc :=
    match fo.is_derived with
    | some b => (acc.1 ++ [metaCond.isDerivedEq b], acc.2)
    | none => acc
  let acc :=
    match fo.is_latest with
    | some b => (acc.1 ++ [metaCond.isLatestEq b], acc.2)
    | none => acc
  let acc := addLookupCond lookupDim.asset_class false fo.asset_class_name__in acc
    (fun j => { j with asset_class := true })
  let acc := addLookupCond lookupDim.sub_asset_class false fo.sub_asset_class_name__in acc
    (fun j => { j with sub_asset_class := true })
  let acc := addLookupCond lookupDim.product_type false fo.product_type_name__in acc
    (fun j => { j with product_type := true })
  let acc := addLookupCond lookupDim.data_type false fo.data_type_name__in acc
    (fun j => { j with data_type := true })
  let acc := addLookupCond lookupDim.structure_type false fo.structure_type_name__in acc
    (fun j => { j with structure_type := true })
  let acc := addLookupCond lookupDim.market_segment false fo.market_segment_name__in acc
    (fun j => { j with market_segment := true })
  let acc := addLookupCond lookupDim.field_type false fo.field_type_name__in acc
    (fun j => { j with field_type := true })
  let acc := addLookupCond lookupDim.ticker_source false fo.ticker_source_name__in acc
    (fun j => { j with ticker_source := true })
  let acc := addLookupCond lookupDim.ticker_source true fo.ticker_source_code__in acc
    (fun j => { j with ticker_source := true })
  acc

/-- Case-insensitive containment, the meaning of column.ilike of the
percent-wrapped pattern the code builds. -/
def ilikeContains (pat s : String) : Bool :=
  decide (List.IsInfix pat.toLower.toList s.toLower.toList)

/-- Evaluate one metadata condition against a registry row joined to its
lookup rows; an IN condition over a dimension reads the joined row, and a
null ticker or a missing join satisfies nothing (SQL three-valued logic
rejects the row). -/
def evalMetaCond (db : pgDatabase) (s : metaSeriesRow) : metaCond → Bool
  | metaCond.seriesNameIlike pat => ilikeContains pat s.series_name
  | metaCond.seriesNameIn names => names.contains s.series_name.toLower
  | metaCond.tickerIlike pat =>
    match s.ticker with
    | some t => ilikeContains pat t
    | none => false
  | metaCond.isActiveEq b => s.is_active == b
  | metaCond.isDerivedEq b => s.is_derived == b
  | metaCond.isLatestEq b => s.is_latest == b
  | metaCond.lookupNameIn dim useCode vals =>
    match joinedLookup db s dim with
    | some l =>
      if useCode then
        match l.code with
        | some c => vals.contains c
        | none => false
      else vals.contains l.name
    | none => false

/-- crudValueData._apply_lookup_joins, semantically: a registry row survives
the inner joins exactly when every needed dimension joins to a row. -/
def lookup_joins_satisfied (db : pgDatabase) (jn : joinsNeeded) (s : metaSeriesRow) : Bool :=
  [lookupDim.asset_class, lookupDim.sub_asset_class, lookupDim.product_type,
   lookupDim.data_type, lookupDim.structure_type, lookupDim.market_segment,
   lookupDim.field_type, lookupDim.ticker_source].all
    (fun dim => !jn.get dim || (joinedLookup db s dim).isSome)

/-- crudValueData._get_filtered_series_ids: the metadata-resolution pass.
Select series_id from the Series Registry joined to the needed lookup
dimensions, keeping the rows on which every condition holds. -/
def get_filtered_series_ids (db : pgDatabase) (fo : valueDataFilter) : List Int :=
  let (conditions, jn) := build_meta_series_conditions fo
  ((db.series.filter (fun s =>
    lookup_joins_satisfied db jn s && conditions.all (evalMetaCond db s))).map
      (fun s => s.series_id))

/-- crudValueData._has_metadata_filters: Python any() over the raw optional
field values, so truthiness decides — a boolean predicate supplied as False,
an empty string and an empty list all count as no filter. -/
def has_metadata_filters (fo : valueDataFilter) : Bool :=
  optStrTruthy fo.series_name__ilike ||
  optListTruthy fo.series_name__in ||
  optStrTruthy fo.ticker__ilike ||
  optBoolTruthy fo.is_active ||
  optBoolTruthy fo.is_derived ||
  optBoolTruthy fo.is_latest ||
  optListTruthy fo.asset_class_name__in ||
  optListTruthy fo.sub_asset_class_name__in ||
  optListTruthy fo.product_type_name__in ||
  optListTruthy fo.data_type_name__in ||
  optListTruthy fo.structure_type_name__in ||
  optListTruthy fo.market_segment_name__in ||
  optListTruthy fo.field_type_name__in ||
  optListTruthy fo.ticker_source_name__in ||
  optListTruthy fo.ticker_source_code__in

/-- crudValueData.get_multi_with_filters: build the ClickHouse conditions;
when metadata filters are present resolve the series-id set in PostgreSQL
first, short-circuiting to the empty result when it is empty, and otherwise
AND the id set into the scan. The boolean records whether the ClickHouse
scan was executed. -/
def get_multi_with_filters (parse : String → Option Int) (db : pgDatabase)
    (ch : List valueData) (now : Int) (fo : valueDataFilter) :
    List valueData × Bool :=
  let (conditions, params) := build_clickhouse_conditions parse now fo
  if has_metadata_filters fo then
    let series_ids_filter := get_filtered_series_ids db fo
    if series_ids_filter.isEmpty then ([], false)
    else
      let conditions := conditions ++ [chCond.seriesIdIn series_ids_filter]
      (chScan ch conditions params (build_order_by_clause fo), true)
  else
    (chScan ch conditions params (build_order_by_clause fo), true)

/-- crudValueData.get_derived: force is_derived to True and delegate. -/
def get_derived (parse : String → Option Int) (db : pgDatabase)
    (ch : List valueData) (now : Int) (fo : valueDataFilter) :
    List valueData × Bool :=
  get_multi_with_filters parse db ch now { fo with is_derived := some true }

/-- crudValueData.get_by_id: SELECT the row of one (series_id, timestamp)
key with LIMIT 1 and no ORDER BY, modelled as the first matching row in
insertion order. -/
def value_data_get_by_id (ch : List valueData) (series_id timestamp : Int) :
    Option valueData :=
  ch.find? (fun r => r.series_id == series_id && r.timestamp == timestamp)

/-- crudValueData.create: a ClickHouse insert appends the row. -/
def value_data_create (ch : List valueData) (obj_in : valueData) : List valueData :=
  ch ++ [obj_in]

/-- The partial-update dictionary accepted by crudValueData.update. -/
structure valueDataUpdate where
  series_id : Option Int := none
  timestamp : Option Int := none
  value : Option ℚ := none
  created_at : Option Int := none
deriving DecidableEq

/-- crudValueData.update: read the existing row of the key; when none
return the store unchanged with no result; otherwise build the merged row
(absent fields keep the existing values, updated_at is refreshed) and
insert it — no row is deleted. Returns the store and the returned row. -/
def value_data_update (ch : List valueData) (series_id timestamp : Int)
    (obj_in : valueDataUpdate) (now : Int) : List valueData × Option valueData :=
  match value_data_get_by_id ch series_id timestamp with
  | none => (ch, none)
  | some existing =>
    let updated : valueData :=
      { series_id := obj_in.series_id.getD existing.series_id
        timestamp := obj_in.timestamp.getD existing.timestamp
        value := obj_in.value.getD existing.value
        created_at := obj_in.created_at.getD existing.created_at
        updated_at := now }
    (value_data_create ch updated, some updated)

/-- An HTTPException raised by an endpoint: status code and detail text. -/
structure httpException where
  status : Nat
  detail : String
deriving DecidableEq, Repr

/-- The (timestamp, value) pair returned for one observation
(valueDataResponse in app/models/value_data.py). -/
structure valueDataResponse where
  timestamp : Int
  value : ℚ
deriving DecidableEq, Repr

/-- The metadata block of one grouped response entry
(valueDataWithMetadataResponse), restricted to the fields the modelled
registry row carries; a series with no registry row falls back to
empty/false defaults. -/
structure valueDataWithMetadataResponse where
  series_id : Int
  series_name : String := ""
  ticker : Option String := none
  is_active : Bool := false
  is_derived : Bool := false
  is_latest : Bool := true
  asset_class_name : Option String := none
  sub_asset_class_name : Option String := none
  product_type_name : Option String := none
  data_type_name : Option String := none
  structure_type_name : Option String := none
  market_segment_name : Option String := none
  field_type_name : Option String := none
deriving DecidableEq, Repr

/-- One grouped response entry: a metadata block and its observation pairs
(valueDataCombinedResponse). -/
structure valueDataCombinedResponse where
  meta_series_data : valueDataWithMetadataResponse
  value_data : List valueDataResponse
deriving DecidableEq, Repr

/-- Build one metadata block for a series id from the registry, defaulting
every field when the series has no registry row, and reading each lookup
name through its joined row exactly as the endpoint's joinedload access
chain does. -/
def buildMetadataBlock (db : pgDatabase) (sid : Int) : valueDataWithMetadataResponse :=
  match db.series.find? (fun s => s.series_id == sid) with
  | none => { series_id := sid }
  | some s =>
    { series_id := sid
      series_name := s.series_name
      ticker := s.ticker
      is_active := s.is_active
      is_derived := s.is_derived
      is_latest := s.is_latest
      asset_class_name := (joinedLookup db s lookupDim.asset_class).map lookupRow.name
      sub_asset_class_name := (joinedLookup db s lookupDim.sub_asset_class).map lookupRow.name
      product_type_name := (joinedLookup db s lookupDim.product_type).map lookupRow.name
      data_type_name := (joinedLookup db s lookupDim.data_type).map lookupRow.name
      structure_type_name := (joinedLookup db s lookupDim.structure_type).map lookupRow.name
      market_segment_name := (joinedLookup db s lookupDim.market_segment).map lookupRow.name
      field_type_name := (joinedLookup db s lookupDim.field_type).map lookupRow.name }

/-- One step of the endpoint's grouping loop over the scan result: append
the row's (timestamp, value) pair to its series' group when the series was
already seen, otherwise open a new group at the end (Python dicts preserve
insertion order). -/
def groupInsert (acc : List (Int × List valueDataResponse)) (r : valueData) :
    List (Int × List valueDataResponse) :=
  if acc.any (fun p => p.1 == r.series_id) then
    acc.map (fun p =>
      if p.1 == r.series_id then (p.1, p.2 ++ [⟨r.timestamp, r.value⟩]) else p)
  else
    acc ++ [(r.series_id, [⟨r.timestamp, r.value⟩])]

/-- The single grouping pass of get_value_data over the Observation scan
result: one group per first-seen series_id, in first-seen order. -/
def groupRowsBySeries (rows : List valueData) : List (Int × List valueDataResponse) :=
  rows.foldl groupInsert []

/-- get_value_data (GET /value-data/): validate the required series_name
predicates, require ClickHouse, run the filtered scan, and group the rows
by series with one metadata block per group. The boolean records whether
any store (relational or time-series) was accessed. -/
def get_value_data (parse : String → Option Int) (db : pgDatabase)
    (chAvailable : Bool) (ch : List valueData) (now : Int) (fo : valueDataFilter) :
    Except httpException (List valueDataCombinedResponse) × Bool :=
  let has_ilike := fo.series_name__ilike.isSome
  let has_in := fo.series_name__in.isSome
  if !(has_ilike || has_in) then
    (Except.error ⟨400, "At least one of series_name__ilike or series_name__in is required. Series names are required."⟩, false)
  else
    let ilike_valid :=
      match fo.series_name__ilike with
      | some s => s ≠ "" && s.trim ≠ ""
      | none => false
    let in_valid :=
      match fo.series_name__in with
      | some names => !names.isEmpty && names.any (fun n => n ≠ "" && n.trim ≠ "")
      | none => false
    if !(ilike_valid || in_valid) then
      (Except.error ⟨400, "At least one of series_name__ilike or series_name__in must have a valid value. Series names are required."⟩, false)
    else if !chAvailable then
      (Except.error ⟨503, "ClickHouse not available"⟩, false)
    else
      let (value_data_list, _) := get_multi_with_filters parse db ch now fo
      let response := (groupRowsBySeries value_data_list).map
        (fun p => valueDataCombinedResponse.mk (buildMetadataBlock db p.1) p.2)
      (Except.ok response, true)

/-- get_value_data_by_date (GET /value-data/series_id/timestamp): the
single-record lookup; no series_name validation, 404 when the key has no
row. -/
def get_value_data_by_date (chAvailable : Bool) (ch : List valueData)
    (series_id timestamp : Int) : Except httpException valueDataResponse × Bool :=
  if !chAvailable then
    (Except.error ⟨503, "ClickHouse not available"⟩, false)
  else
    match value_data_get_by_id ch series_id timestamp with
    | none => (Except.error ⟨404, "Value data not found"⟩, true)
    | some v => (Except.ok ⟨v.timestamp, v.value⟩, true)

/-- get_derived_value_data (GET /value-data/derived/): the derived-only
listing; no series_name validation, delegates to get_derived. -/
def get_derived_value_data (parse : String → Option Int) (db : pgDatabase)
    (chAvailable : Bool) (ch : List valueData) (now : Int) (fo : valueDataFilter) :
    Except httpException (List valueDataResponse) × Bool :=
  if !chAvailable then
    (Except.error ⟨503, "ClickHouse not available"⟩, false)
  else
    let (value_data_list, _) := get_derived parse db ch now fo
    (Except.ok (value_data_list.map (fun v => ⟨v.timestamp, v.value⟩)), true)

/-- One edge of the series dependency graph (seriesDependencyGraph in
app/models/dependency.py), restricted to the filterable columns. -/
structure seriesDependencyGraph where
  dependency_id : Int
  parent_series_id : Int
  child_series_id : Int
  dependency_type : Option String := none
  weight : Option ℚ := none
  is_active : Bool := true
deriving DecidableEq, Repr

/-- The dependency filter schema (dependencyFilter in
app/schemas/filters.py): every predicate is optional and defaults to none,
except is_active whose schema default is True. Ordering is orthogonal to
the membership claims and is not modelled. -/
structure dependencyFilter where
  parent_series_id : Option Int := none
  parent_series_id__in : Option (List Int) := none
  child_series_id : Option Int := none
  child_series_id__in : Option (List Int) := none
  is_active : Option Bool := some true
  dependency_type : Option String := none
  dependency_type__in : Option (List String) := none
deriving DecidableEq, Repr

/-- fastapi-filter semantics of one dependency filter against one edge:
every field left at none contributes no condition; a plain field is an
equality and an __in field a membership test (a null dependency_type never
equals or belongs, per SQL). -/
def dependencyMatches (fo : dependencyFilter) (e : seriesDependencyGraph) : Bool :=
  (match fo.parent_series_id with
   | some v => e.parent_series_id == v
   | none => true) &&
  (match fo.parent_series_id__in with
   | some l => l.contains e.parent_series_id
   | none => true) &&
  (match fo.child_series_id with
   | some v => e.child_series_id == v
   | none => true) &&
  (match fo.child_series_id__in with
   | some l => l.contains e.child_series_id
   | none => true) &&
  (match fo.is_active with
   | some b => e.is_active == b
   | none => true) &&
  (match fo.dependency_type with
   | some t =>
     match e.dependency_type with
     | some et => et == t
     | none => false
   | none => true) &&
  (match fo.dependency_type__in with
   | some l =>
     match e.dependency_type with
     | some et => l.contains et
     | none => false
   | none => true)

/-- CRUDDependency.get_multi_with_filters, the list_dependencies operation:
apply the dependency filter to the edge table. -/
def list_dependencies (edges : List seriesDependencyGraph) (fo : dependencyFilter) :
    List seriesDependencyGraph :=
  edges.filter (dependencyMatches fo)

/-- The dependency filter produced when the caller supplies no predicate:
every field at its schema default. -/
def dependencyFilterDefault : dependencyFilter := {}

/-- crudMetaSeries.get_by_id: first registry row with the series_id. -/
def meta_series_get_by_id (reg : List metaSeriesRow) (series_id : Int) :
    Option metaSeriesRow :=
  reg.find? (fun s => s.series_id == series_id)

/-- Replace the row of one primary key in the registry. -/
def replaceSeries (reg : List metaSeriesRow) (series_id : Int) (s' : metaSeriesRow) :
    List metaSeriesRow :=
  reg.map (fun s => if s.series_id == series_id then s' else s)

/-- crudMetaSeries.soft_delete: look the series up; when present set
is_active to False and commit, when absent return none and leave the
registry unchanged. The ORM flush emits an UPDATE (and so fires the
updated_at onupdate hook) only when a column value actually changes;
re-setting is_active to False on an already-inactive row is a no-op at
flush time, so updated_at is refreshed only on the first transition. -/
def soft_delete (reg : List metaSeriesRow) (series_id : Int) (now : Int) :
    List metaSeriesRow × Option metaSeriesRow :=
  match meta_series_get_by_id reg series_id with
  | none => (reg, none)
  | some s =>
    let s' := if s.is_active then { s with is_active := false, updated_at := now } else s
    (replaceSeries reg series_id s', some s')

/-- delete_meta_series (DELETE /meta-series/series_id): 404 when
soft_delete finds nothing, 204 otherwise. -/
def delete_meta_series (reg : List metaSeriesRow) (series_id : Int) (now : Int) :
    List metaSeriesRow × Except httpException Unit :=
  match soft_delete reg series_id now with
  | (reg', none) => (reg', Except.error ⟨404, "Meta series not found"⟩)
  | (reg', some _) => (reg', Except.ok ())

/-- The observable state of one backing store when its health is probed. -/
inductive probeResult where
  | ok
  | uninitialized
  | failure (msg : String)
  | timeout
deriving DecidableEq, Repr

/-- The Python exception classes the health endpoint distinguishes. -/
inductive pyError where
  | runtimeError (msg : String)
  | timeoutError
  | storeError (msg : String)
deriving DecidableEq, Repr

/-- The message carried by an exception. -/
def pyErrorMsg : pyError → String
  | pyError.runtimeError m => m
  | pyError.timeoutError => "TimeoutError"
  | pyError.storeError m => m

/-- db_health_check (app/core/database.py): RuntimeError when the engine is
not initialized; a failing SELECT 1 raises the store's own error; exceeding
the timeout raises asyncio.TimeoutError. Returns none on success. -/
def db_health_check (st : probeResult) (timeout : ℚ) : Option pyError :=
  match st, timeout with
  | probeResult.ok, _ => none
  | probeResult.uninitialized, _ => some (pyError.runtimeError "Database not initialized.")
  | probeResult.failure m, _ => some (pyError.storeError m)
  | probeResult.timeout, _ => some pyError.timeoutError

/-- redis_health_check (app/core/redis_conn.py): RuntimeError only when the
connection pool is not initialized; a failing ping raises the Redis error;
timeout raises asyncio.TimeoutError. -/
def redis_health_check (st : probeResult) (timeout : ℚ) : Option pyError :=
  match st, timeout with
  | probeResult.ok, _ => none
  | probeResult.uninitialized, _ =>
    some (pyError.runtimeError "Redis connection pool not initialized.")
  | probeResult.failure m, _ => some (pyError.storeError m)
  | probeResult.timeout, _ => some pyError.timeoutError

/-- clickhouse_health_check (app/core/clickhouse_conn.py): RuntimeError when
the client is not initialized, but also for every failing SELECT 1 — the
inner helper re-raises any command failure as RuntimeError. Only exceeding
the asyncio.wait_for bound escapes as TimeoutError. -/
def clickhouse_health_check (st : probeResult) (timeout : ℚ) : Option pyError :=
  match st, timeout with
  | probeResult.ok, _ => none
  | probeResult.uninitialized, _ =>
    some (pyError.runtimeError "ClickHouse client not initialized.")
  | probeResult.failure m, _ =>
    some (pyError.runtimeError ("ClickHouse health check failed: " ++ m))
  | probeResult.timeout, _ => some pyError.timeoutError

/-- The healthy response body of GET /health. -/
structure healthStatusResponse where
  status : String
  database : String
  redis : String
  clickhouse : String
deriving DecidableEq, Repr

/-- The 503 detail body of GET /health. -/
structure healthErrorResponse where
  status : String
  database : String
  error : String
deriving DecidableEq, Repr

/-- health_check (app/api/v1/endpoints/system.py): the relational store is
probed with a 5-second timeout and any failure aborts with 503; Redis and
ClickHouse are probed with 2-second timeouts, RuntimeError mapping to
not_configured, any other exception to disconnected, neither failing the
overall check. -/
def health_check (dbSt redisSt chSt : probeResult) :
    Except (Nat × healthErrorResponse) healthStatusResponse :=
  match db_health_check dbSt 5 with
  | some e => Except.error (503, ⟨"unhealthy", "disconnected", pyErrorMsg e⟩)
  | none =>
    let redisStatus :=
      match redis_health_check redisSt 2 with
      | none => "connected"
      | some (pyError.runtimeError _) => "not_configured"
      | some _ => "disconnected"
    let clickhouseStatus :=
      match clickhouse_health_check chSt 2 with
      | none => "connected"
      | some (pyError.runtimeError _) => "not_configured"
      | some _ => "disconnected"
    Except.ok ⟨"healthy", "connected", redisStatus, clickhouseStatus⟩

/-! ## Concrete fixtures used by witnesses and counterexamples -/

/-- A pytimeparse2 stand-in that parses nothing. -/
def parseNone : String → Option Int := fun _ => none

/-- A pytimeparse2 stand-in that parses exactly the expression 1d to one
day of seconds. -/
def parse1d : String → Option Int := fun s => if s = "1d" then some 86400 else none

/-- A registry with a single active series. -/
def regActive : pgDatabase := { series := [{ series_id := 1, series_name := "gold" }] }

/-- One observation row of series 1. -/
def obsRow1 : valueData := { series_id := 1, timestamp := 100, value := 5 }

/-- The pre-existing observation row of the update counterexample. -/
def staleRow : valueData := { series_id := 1, timestamp := 10, value := 10 }

/-- An active edge used by the C7 witness. -/
def edgeActive : seriesDependencyGraph :=
  { dependency_id := 1, parent_series_id := 1, child_series_id := 2 }

/-- The one-row registry of the C6 witness. -/
def regOne : List metaSeriesRow := [{ series_id := 1, series_name := "gold" }]

/-- The C10 witness filter: both a parsable timestamp__ago and an explicit
timestamp__gte. -/
def foAgoGte : valueDataFilter := { timestamp__gte := some 0, timestamp__ago := some "1d" }

/-- The C5 witness filters: an unparsable expression, and a parsable one
with no explicit timestamp__gte. -/
def foAgoNope : valueDataFilter := { timestamp__ago := some "nope" }

/-- A parsable relative-time filter with no explicit timestamp__gte. -/
def foAgo1d : valueDataFilter := { timestamp__ago := some "1d" }

/-- The series ids of a scan result in first-seen order. -/
def firstSeenIds (rows : List valueData) : List Int :=
  rows.foldl
    (fun ks r => if ks.any (fun k => k == r.series_id) then ks else ks ++ [r.series_id])
    []

/-- The group of one series id in a grouping accumulator (empty when the
series has no group yet). -/
def lookupGroup (acc : List (Int × List valueDataResponse)) (sid : Int) :
    List valueDataResponse :=
  ((acc.find? (fun p => p.1 == sid)).map Prod.snd).getD []

/-- The scan-result fixture of the C4 witness: three rows over two series
with an interleaved order. -/
def rowsWitness : List valueData :=
  [{ series_id := 1, timestamp := 11, value := 1 },
   { series_id := 2, timestamp := 12, value := 2 },
   { series_id := 1, timestamp := 13, value := 3 }]

/-! ## C1 -/

/-- C1: a boolean metadata predicate supplied as False is dropped by
has_metadata_filters (Python any() truthiness), so the filter is_active=False
triggers no metadata-resolution pass: the scan runs unrestricted and returns
the data of an active series, although the resolution pass, had it run,
would have produced the empty id set (and hence an empty result). -/
theorem has_metadata_filters_ignores_false_boolean :
    has_metadata_filters { is_active := some false } = false ∧
    get_filtered_series_ids regActive { is_active := some false } = [] ∧
    get_multi_with_filters parseNone regActive [obsRow1] 0 { is_active := some false }
      = ([obsRow1], true) := by
  decide

/-! ## C2 -/

/-- C2: whenever metadata filters are present and the metadata-resolution
pass yields no series_id, get_multi_with_filters returns the empty list and
the ClickHouse scan is never executed. -/
theorem get_multi_with_filters_short_circuit (parse : String → Option Int)
    (db : pgDatabase) (ch : List valueData) (now : Int) (fo : valueDataFilter)
    (hmeta : has_metadata_filters fo = true)
    (hempty : get_filtered_series_ids db fo = []) :
    get_multi_with_filters parse db ch now fo = ([], false) := by
  simp [get_multi_with_filters, hmeta, hempty]

/-- Witness for C2 at a concrete input: the filter is_derived=True against
an empty registry resolves to no ids, and the populated ClickHouse store is
not scanned. -/
theorem get_multi_with_filters_short_circuit_witness :
    has_metadata_filters { is_derived := some true } = true ∧
    get_filtered_series_ids {} { is_derived := some true } = [] ∧
    get_multi_with_filters parseNone {} [obsRow1] 0 { is_derived := some true }
      = ([], false) :=
  ⟨by decide, by decide,
   get_multi_with_filters_short_circuit parseNone {} [obsRow1] 0
     { is_derived := some true } (by decide) (by decide)⟩

/-! ## C8 -/

/-- C8: update on an existing (series_id, timestamp) key merges the partial
input over the existing row, refreshes updated_at and inserts the merged
row, but deletes nothing: afterwards the store holds both rows for the key
and the key lookup (LIMIT 1, no ORDER BY) still returns the stale row. On a
missing key it returns none and inserts nothing. -/
theorem value_data_update_keeps_stale_row :
    value_data_update [staleRow] 1 10 { value := some 20 } 99
      = ([staleRow, { series_id := 1, timestamp := 10, value := 20, updated_at := 99 }],
         some { series_id := 1, timestamp := 10, value := 20, updated_at := 99 }) ∧
    ((value_data_update [staleRow] 1 10 { value := some 20 } 99).1.filter
        (fun r => r.series_id == 1 && r.timestamp == 10)).length = 2 ∧
    value_data_get_by_id (value_data_update [staleRow] 1 10 { value := some 20 } 99).1 1 10
      = some staleRow ∧
    value_data_update [] 1 10 { value := some 20 } 99 = ([], none) := by
  decide

/-! ## C9 -/

/-- C9: the primary store is mandatory (any failure aborts with 503) and the
optional stores never fail the overall check, but an initialized,
unreachable ClickHouse is reported as not_configured rather than
disconnected, because clickhouse_health_check re-raises every command
failure as RuntimeError; only a timeout yields disconnected. Redis behaves
as the claim says. -/
theorem health_check_clickhouse_failure_not_configured :
    health_check probeResult.ok probeResult.ok (probeResult.failure "connection refused")
      = Except.ok ⟨"healthy", "connected", "connected", "not_configured"⟩ ∧
    health_check probeResult.ok probeResult.ok probeResult.timeout
      = Except.ok ⟨"healthy", "connected", "connected", "disconnected"⟩ ∧
    health_check probeResult.ok (probeResult.failure "connection refused") probeResult.ok
      = Except.ok ⟨"healthy", "connected", "disconnected", "connected"⟩ ∧
    health_check probeResult.ok probeResult.uninitialized probeResult.uninitialized
      = Except.ok ⟨"healthy", "connected", "not_configured", "not_configured"⟩ ∧
    health_check (probeResult.failure "boom") probeResult.ok probeResult.ok
      = Except.error (503, ⟨"unhealthy", "disconnected", "boom"⟩) ∧
    health_check probeResult.uninitialized probeResult.ok probeResult.ok
      = Except.error (503, ⟨"unhealthy", "disconnected", "Database not initialized."⟩) :=
  ⟨rfl, rfl, rfl, rfl, rfl, rfl⟩

/-! ## C7 -/

/-- A dependency filter whose is_active predicate is the schema default True
only matches active edges. -/
theorem dependencyMatches_active (fo : dependencyFilter) (e : seriesDependencyGraph)
    (hfo : fo.is_active = some true) (h : dependencyMatches fo e = true) :
    e.is_active = true := by
  unfold dependencyMatches at h
  rw [hfo] at h
  simp only [Bool.and_eq_true] at h
  have := h.1.1.2
  simpa using this

/-- C7: the dependency filter's is_active field defaults to True, a filter
left at that default returns only active edges, and an inactive edge can
appear in the result only when the caller has overridden the default. -/
theorem list_dependencies_default_filters_active :
    dependencyFilterDefault.is_active = some true ∧
    (∀ (edges : List seriesDependencyGraph) (fo : dependencyFilter)
        (e : seriesDependencyGraph), fo.is_active = some true →
        e ∈ list_dependencies edges fo → e.is_active = true) ∧
    (∀ (edges : List seriesDependencyGraph) (fo : dependencyFilter)
        (e : seriesDependencyGraph), e ∈ list_dependencies edges fo →
        e.is_active = false → fo.is_active ≠ some true) := by
  refine ⟨rfl, ?_, ?_⟩
  · intro edges fo e hfo hmem
    rw [list_dependencies, List.mem_filter] at hmem
    exact dependencyMatches_active fo e hfo hmem.2
  · intro edges fo e hmem hinactive hfo
    rw [list_dependencies, List.mem_filter] at hmem
    rw [dependencyMatches_active fo e hfo hmem.2] at hinactive
    cases hinactive

/-- Witness for C7 at a concrete input: the default filter applied to a
one-edge table. -/
theorem list_dependencies_default_filters_active_witness :
    edgeActive.is_active = true :=
  list_dependencies_default_filters_active.2.1 [edgeActive] dependencyFilterDefault
    edgeActive (by decide) (by decide)

/-! ## C6 -/

/-- Replacing the row of a key that is found replaces what the lookup
returns. -/
theorem meta_series_get_by_id_replace (sid : Int) (s' : metaSeriesRow)
    (hs' : s'.series_id = sid) :
    ∀ reg : List metaSeriesRow, (meta_series_get_by_id reg sid).isSome = true →
      meta_series_get_by_id (replaceSeries reg sid s') sid = some s' := by
  intro reg
  induction reg with
  | nil => intro hfound; simp [meta_series_get_by_id] at hfound
  | cons a l ih =>
    intro hfound
    by_cases h : a.series_id = sid
    · have hrepl : replaceSeries (a :: l) sid s'
          = s' :: l.map (fun s => if s.series_id == sid then s' else s) := by
        simp [replaceSeries, h]
      rw [hrepl, meta_series_get_by_id, List.find?_cons_of_pos _ (by simp [hs'])]
    · have hrepl : replaceSeries (a :: l) sid s' = a :: replaceSeries l sid s' := by
        simp [replaceSeries, h]
      rw [meta_series_get_by_id, List.find?_cons_of_neg _ (by simp [h])] at hfound
      rw [hrepl, meta_series_get_by_id, List.find?_cons_of_neg _ (by simp [h])]
      exact ih hfound

/-- Replacing a key's row by the same row twice is the same as doing it
once. -/
theorem replaceSeries_idem (reg : List metaSeriesRow) (sid : Int)
    (s' : metaSeriesRow) (hs' : s'.series_id = sid) :
    replaceSeries (replaceSeries reg sid s') sid s' = replaceSeries reg sid s' := by
  unfold replaceSeries
  rw [List.map_map]
  apply List.map_congr_left
  intro a _
  by_cases h : a.series_id = sid
  · simp [Function.comp, h, hs']
  · simp [Function.comp, h]

/-- C6: soft_delete is idempotent. On an existing series the first call
returns the series with is_active=False; the second call raises nothing,
returns the very same row (in particular the same updated_at — the ORM
emits no UPDATE when nothing changes, so the onupdate hook does not fire
again) and leaves the registry unchanged. On a missing series_id it leaves
the registry unchanged, returns none, and the delete endpoint reports 404. -/
theorem soft_delete_idempotent :
    (∀ (reg : List metaSeriesRow) (sid t1 t2 : Int) (s : metaSeriesRow),
      meta_series_get_by_id reg sid = some s →
      ∃ s1, (soft_delete reg sid t1).2 = some s1 ∧ s1.is_active = false ∧
        soft_delete (soft_delete reg sid t1).1 sid t2
          = ((soft_delete reg sid t1).1, some s1)) ∧
    (∀ (reg : List metaSeriesRow) (sid t : Int),
      meta_series_get_by_id reg sid = none →
      soft_delete reg sid t = (reg, none) ∧
      (delete_meta_series reg sid t).2 = Except.error ⟨404, "Meta series not found"⟩) := by
  constructor
  · intro reg sid t1 t2 s h
    have hsid : s.series_id = sid := by
      have := List.find?_some h
      simpa using this
    set s1 := if s.is_active then { s with is_active := false, updated_at := t1 } else s
      with hs1
    have hs1id : s1.series_id = sid := by
      rw [hs1]; cases s.is_active <;> simpa using hsid
    have hs1act : s1.is_active = false := by
      rw [hs1]; cases ha : s.is_active <;> simp [ha]
    have hfirst : soft_delete reg sid t1 = (replaceSeries reg sid s1, some s1) := by
      rw [soft_delete, h]
    refine ⟨s1, by rw [hfirst], hs1act, ?_⟩
    rw [hfirst]
    have hfound : (meta_series_get_by_id reg sid).isSome = true := by rw [h]; rfl
    have hsecond_find : meta_series_get_by_id (replaceSeries reg sid s1) sid = some s1 :=
      meta_series_get_by_id_replace sid s1 hs1id reg hfound
    rw [soft_delete, hsecond_find]
    simp only [hs1act, Bool.false_eq_true, if_false]
    rw [replaceSeries_idem reg sid s1 hs1id]
  · intro reg sid t h
    constructor
    · rw [soft_delete, h]
    · rw [delete_meta_series]
      have : soft_delete reg sid t = (reg, none) := by rw [soft_delete, h]
      rw [this]

/-- Witness for C6 at a concrete input: an existing series id and a missing
one. -/
theorem soft_delete_idempotent_witness :
    (∃ s1, (soft_delete regOne 1 5).2 = some s1 ∧ s1.is_active = false ∧
      soft_delete (soft_delete regOne 1 5).1 1 9 = ((soft_delete regOne 1 5).1, some s1)) ∧
    (soft_delete regOne 2 5 = (regOne, none) ∧
      (delete_meta_series regOne 2 5).2 = Except.error ⟨404, "Meta series not found"⟩) :=
  ⟨soft_delete_idempotent.1 regOne 1 5 9 { series_id := 1, series_name := "gold" } (by decide),
   soft_delete_idempotent.2 regOne 2 5 (by decide)⟩

/-! ## C3 -/

/-- C3: the primary value-data listing raises a 400 ValidationError, before
touching either store, whenever series_name__ilike is absent and every
supplied series_name__in entry is blank; the single-record lookup and the
derived-only listing carry no series_name restriction and do reach the
store. -/
theorem value_data_listing_requires_series_name :
    (∀ (parse : String → Option Int) (db : pgDatabase) (chAvailable : Bool)
        (ch : List valueData) (now : Int) (fo : valueDataFilter),
      fo.series_name__ilike = none →
      (∀ n ∈ fo.series_name__in.getD [], n.trim = "") →
      (get_value_data parse db chAvailable ch now fo).2 = false ∧
      ∃ msg, (get_value_data parse db chAvailable ch now fo).1
        = Except.error ⟨400, msg⟩) ∧
    (∀ (ch : List valueData) (sid ts : Int),
      (get_value_data_by_date true ch sid ts).2 = true) ∧
    (∀ (parse : String → Option Int) (db : pgDatabase) (ch : List valueData)
        (now : Int) (fo : valueDataFilter),
      (get_derived_value_data parse db true ch now fo).2 = true) := by
  refine ⟨?_, ?_, ?_⟩
  · intro parse db chAvailable ch now fo hilike hblank
    cases hin : fo.series_name__in with
    | none =>
      constructor
      · simp [get_value_data, hilike, hin]
      · exact ⟨"At least one of series_name__ilike or series_name__in is required. Series names are required.",
          by simp [get_value_data, hilike, hin]⟩
    | some names =>
      have hall : ∀ x ∈ names, ¬x = "" → x.trim = "" :=
        fun x hx _ => hblank x (by rw [hin]; exact hx)
      constructor
      · simp only [get_value_data, hilike, hin]
        simp only [Option.isSome_none, Option.isSome_some]
        simp
        rw [if_pos (Or.inr hall)]
      · refine ⟨"At least one of series_name__ilike or series_name__in must have a valid value. Series names are required.", ?_⟩
        simp only [get_value_data, hilike, hin]
        simp only [Option.isSome_none, Option.isSome_some]
        simp
        rw [if_pos (Or.inr hall)]
  · intro ch sid ts
    rw [get_value_data_by_date]
    cases value_data_get_by_id ch sid ts <;> simp
  · intro parse db ch now fo
    rw [get_derived_value_data]
    simp

/-- Witness for C3 at a concrete input: the empty filter is rejected with a
400 before store access, while the other two listings reach the store. -/
theorem value_data_listing_requires_series_name_witness :
    ((get_value_data parseNone {} true [] 0 {}).2 = false ∧
      ∃ msg, (get_value_data parseNone {} true [] 0 {}).1 = Except.error ⟨400, msg⟩) ∧
    (get_value_data_by_date true [] 1 1).2 = true ∧
    (get_derived_value_data parseNone {} true [] 0 {}).2 = true :=
  ⟨value_data_listing_requires_series_name.1 parseNone {} true [] 0 {} rfl
      (by intro n hn; simp at hn),
   value_data_listing_requires_series_name.2.1 [] 1 1,
   value_data_listing_requires_series_name.2.2 parseNone {} [] 0 {}⟩

/-! ## C10 -/

/-- Conjunction splits over condition-list concatenation. -/
theorem evalConds_append (c1 c2 : List chCond) (p : List (String × chParam))
    (r : valueData) :
    evalConds (c1 ++ c2) p r = (evalConds c1 p r && evalConds c2 p r) := by
  simp [evalConds, List.all_append]

/-- Scans agree when the evaluated WHERE clauses agree on every row. -/
theorem chScan_congr (store : List valueData) (c c' : List chCond)
    (p p' : List (String × chParam)) (o : List orderSpec)
    (h : ∀ r, evalConds c p r = evalConds c' p' r) :
    chScan store c p o = chScan store c' p' o := by
  unfold chScan
  rw [List.filter_congr (fun r _ => h r)]

/-- get_multi_with_filters depends on the filter only through the metadata
gate, the resolved id set, the order specification and the evaluated WHERE
clause. -/
theorem get_multi_with_filters_congr (parse : String → Option Int)
    (db : pgDatabase) (ch : List valueData) (now : Int) (fo fo' : valueDataFilter)
    (hmeta : has_metadata_filters fo = has_metadata_filters fo')
    (hids : get_filtered_series_ids db fo = get_filtered_series_ids db fo')
    (hord : build_order_by_clause fo = build_order_by_clause fo')
    (heval : ∀ r, evalConds (build_clickhouse_conditions parse now fo).1
        (build_clickhouse_conditions parse now fo).2 r
      = evalConds (build_clickhouse_conditions parse now fo').1
        (build_clickhouse_conditions parse now fo').2 r) :
    get_multi_with_filters parse db ch now fo
      = get_multi_with_filters parse db ch now fo' := by
  unfold get_multi_with_filters
  rcases hbc : build_clickhouse_conditions parse now fo with ⟨c, p⟩
  rcases hbc2 : build_clickhouse_conditions parse now fo' with ⟨c2, p2⟩
  rw [hbc, hbc2] at heval
  dsimp only at heval ⊢
  rw [hmeta, hids, hord]
  cases hm : has_metadata_filters fo' with
  | false =>
    simp only [Bool.false_eq_true, if_false]
    rw [chScan_congr ch c c2 p p2 (build_order_by_clause fo') heval]
  | true =>
    simp only [if_true]
    cases hempty : (get_filtered_series_ids db fo').isEmpty with
    | true => simp [hempty]
    | false =>
      simp only [hempty, Bool.false_eq_true, if_false]
      have : ∀ r, evalConds (c ++ [chCond.seriesIdIn (get_filtered_series_ids db fo')]) p r
          = evalConds (c2 ++ [chCond.seriesIdIn (get_filtered_series_ids db fo')]) p2 r := by
        intro r
        rw [evalConds_append, evalConds_append, heval r]
        rfl
      rw [chScan_congr ch _ _ p p2 (build_order_by_clause fo') this]

/-- C10: when a parsable timestamp__ago and an explicit timestamp__gte are
both supplied, the two generated conditions share the single query
parameter named timestamp__gte, whose final value is the explicit
timestamp__gte date, and the whole query result equals the result with
timestamp__ago removed — the parsed relative bound has no effect. -/
theorem timestamp_ago_shares_gte_param (parse : String → Option Int)
    (db : pgDatabase) (ch : List valueData) (now : Int) (fo : valueDataFilter)
    (a : String) (d g : Int)
    (ha : fo.timestamp__ago = some a) (hd : parse a = some d)
    (hg : fo.timestamp__gte = some g) :
    dictGet (build_clickhouse_conditions parse now fo).2 "timestamp__gte"
      = some (chParam.date g) ∧
    (build_clickhouse_conditions parse now fo).1.count (chCond.tsGe "timestamp__gte") = 2 ∧
    get_multi_with_filters parse db ch now fo
      = get_multi_with_filters parse db ch now { fo with timestamp__ago := none } := by
  obtain ⟨f1, f2, f3, f4, f5, f6, f7, f8, f9, f10, f11, f12, f13, f14, f15, f16, f17,
    f18, f19, f20, f21, f22, f23, f24, f25, f26, f27, f28, f29, f30⟩ := fo
  replace ha : f5 = some a := ha
  replace hg : f3 = some g := hg
  subst ha hg
  rcases f2 with _ | ids <;> rcases f4 with _ | lt <;>
    rcases f7 with _ | vg <;> rcases f8 with _ | vl <;>
    refine ⟨?_, ?_, ?_⟩ <;> try rfl
  all_goals
    first
    | (simp only [build_clickhouse_conditions, hd]; rfl)
    | (apply get_multi_with_filters_congr parse db ch now <;> try rfl
       intro r
       simp [build_clickhouse_conditions, hd, evalConds, evalCond, dictGet, dictSet,
         List.find?])

/-- Witness for C10 at a concrete input. -/
theorem timestamp_ago_shares_gte_param_witness :
    dictGet (build_clickhouse_conditions parse1d (10 * 86400) foAgoGte).2 "timestamp__gte"
      = some (chParam.date 0) ∧
    (build_clickhouse_conditions parse1d (10 * 86400) foAgoGte).1.count
      (chCond.tsGe "timestamp__gte") = 2 ∧
    get_multi_with_filters parse1d {} [obsRow1] (10 * 86400) foAgoGte
      = get_multi_with_filters parse1d {} [obsRow1] (10 * 86400)
          { foAgoGte with timestamp__ago := none } :=
  timestamp_ago_shares_gte_param parse1d {} [obsRow1] (10 * 86400) foAgoGte "1d" 86400 0
    rfl (by decide) rfl

/-! ## C5 -/

/-- C5, counterexample to the claim as stated: with timestamp__ago equal to
1d (parsable, floor day 9 of the modelled clock) and timestamp__gte equal
to day 0 both supplied, a row at day 5 — older than the relative floor — is
returned, so the parsed timestamp__ago predicate was not applied as
timestamp >= now minus the duration. -/
theorem timestamp_ago_parsed_bound_not_applied :
    parse1d "1d" = some 86400 ∧
    agoFloorDate (10 * 86400) 86400 = 9 ∧
    ¬((9 : Int) ≤ 5) ∧
    get_multi_with_filters parse1d {} [{ series_id := 1, timestamp := 5, value := 1 }]
        (10 * 86400) { timestamp__ago := some "1d", timestamp__gte := some 0 }
      = ([{ series_id := 1, timestamp := 5, value := 1 }], true) := by
  decide

/-- C5 as amended: an unparsable timestamp__ago is silently dropped — the
built conditions and parameters are exactly those of the same filter
without it — and a parsable one is applied as timestamp >= (now minus the
parsed duration) provided no explicit timestamp__gte is supplied (an
explicit timestamp__gte overwrites the shared parameter, see the
parameter-collision theorem). -/
theorem timestamp_ago_silent_drop_amended (parse : String → Option Int) (now : Int)
    (fo : valueDataFilter) (a : String) (ha : fo.timestamp__ago = some a) :
    (parse a = none →
      build_clickhouse_conditions parse now fo
        = build_clickhouse_conditions parse now { fo with timestamp__ago := none }) ∧
    (∀ d : Int, parse a = some d → fo.timestamp__gte = none →
      dictGet (build_clickhouse_conditions parse now fo).2 "timestamp__gte"
        = some (chParam.date (agoFloorDate now d)) ∧
      ∀ r, evalConds (build_clickhouse_conditions parse now fo).1
            (build_clickhouse_conditions parse now fo).2 r
          = (decide (agoFloorDate now d ≤ r.timestamp) &&
             evalConds (build_clickhouse_conditions parse now
                 { fo with timestamp__ago := none }).1
               (build_clickhouse_conditions parse now
                 { fo with timestamp__ago := none }).2 r)) := by
  obtain ⟨f1, f2, f3, f4, f5, f6, f7, f8, f9, f10, f11, f12, f13, f14, f15, f16, f17,
    f18, f19, f20, f21, f22, f23, f24, f25, f26, f27, f28, f29, f30⟩ := fo
  replace ha : f5 = some a := ha
  subst ha
  constructor
  · intro hpn
    simp [build_clickhouse_conditions, hpn]
  · intro d hd hg
    replace hg : f3 = none := hg
    subst hg
    rcases f2 with _ | ids <;> rcases f4 with _ | lt <;>
      rcases f7 with _ | vg <;> rcases f8 with _ | vl <;>
      refine ⟨by simp only [build_clickhouse_conditions, hd]; rfl, ?_⟩ <;>
      · intro r
        simp [build_clickhouse_conditions, hd, evalConds, evalCond, dictGet, dictSet,
          List.find?, Bool.and_assoc, Bool.and_left_comm, Bool.and_comm]

/-- Witness for the amended C5 at concrete inputs. -/
theorem timestamp_ago_silent_drop_amended_witness :
    (build_clickhouse_conditions parseNone 0 foAgoNope
      = build_clickhouse_conditions parseNone 0 { foAgoNope with timestamp__ago := none }) ∧
    (dictGet (build_clickhouse_conditions parse1d (10 * 86400) foAgo1d).2 "timestamp__gte"
      = some (chParam.date (agoFloorDate (10 * 86400) 86400))) ∧
    (evalConds (build_clickhouse_conditions parse1d (10 * 86400) foAgo1d).1
        (build_clickhouse_conditions parse1d (10 * 86400) foAgo1d).2 obsRow1
      = (decide (agoFloorDate (10 * 86400) 86400 ≤ obsRow1.timestamp) &&
         evalConds (build_clickhouse_conditions parse1d (10 * 86400)
             { foAgo1d with timestamp__ago := none }).1
           (build_clickhouse_conditions parse1d (10 * 86400)
             { foAgo1d with timestamp__ago := none }).2 obsRow1)) :=
  ⟨(timestamp_ago_silent_drop_amended parseNone 0 foAgoNope "nope" rfl).1 rfl,
   ((timestamp_ago_silent_drop_amended parse1d (10 * 86400) foAgo1d "1d" rfl).2 86400
      (by decide) rfl).1,
   ((timestamp_ago_silent_drop_amended parse1d (10 * 86400) foAgo1d "1d" rfl).2 86400
      (by decide) rfl).2 obsRow1⟩

/-! ## C4 -/

/-- Inserting a row either leaves the group keys unchanged (series already
seen) or appends the new series id. -/
theorem groupInsert_keys (acc : List (Int × List valueDataResponse)) (r : valueData) :
    (groupInsert acc r).map Prod.fst
      = if (acc.map Prod.fst).any (fun k => k == r.series_id)
        then acc.map Prod.fst
        else acc.map Prod.fst ++ [r.series_id] := by
  unfold groupInsert
  have hany : acc.any (fun p => p.1 == r.series_id)
      = (acc.map Prod.fst).any (fun k => k == r.series_id) := by
    induction acc with
    | nil => rfl
    | cons a l ih => simp [List.any_cons, ih]
  rw [← hany]
  cases h : acc.any (fun p => p.1 == r.series_id)
  · simp [h]
  · simp only [if_true]
    rw [List.map_map]
    apply List.map_congr_left
    intro p _
    cases hp : p.1 == r.series_id <;> simp [Function.comp, hp]

/-- The keys of the grouping fold are the first-seen fold of the keys. -/
theorem groupRows_keys_fold (rows : List valueData) :
    ∀ acc : List (Int × List valueDataResponse),
      (rows.foldl groupInsert acc).map Prod.fst
        = rows.foldl
            (fun ks r => if ks.any (fun k => k == r.series_id) then ks
                         else ks ++ [r.series_id])
            (acc.map Prod.fst) := by
  induction rows with
  | nil => intro acc; rfl
  | cons r rest ih =>
    intro acc
    rw [List.foldl_cons, List.foldl_cons, ih, groupInsert_keys]

/-- One first-seen step preserves distinctness of the keys. -/
theorem firstSeen_step_nodup (ks : List Int) (i : Int) (h : ks.Nodup) :
    (if ks.any (fun k => k == i) then ks else ks ++ [i]).Nodup := by
  cases hany : ks.any (fun k => k == i)
  · simp only [Bool.false_eq_true, if_false]
    have hnot : i ∉ ks := by
      intro hmem
      have htrue : ks.any (fun k => k == i) = true :=
        List.any_eq_true.mpr ⟨i, hmem, by simp⟩
      rw [hany] at htrue
      cases htrue
    simp [List.nodup_append, h, hnot]
  · simpa [hany] using h

/-- The first-seen fold preserves distinctness. -/
theorem firstSeen_fold_nodup (rows : List valueData) :
    ∀ ks : List Int, ks.Nodup →
      (rows.foldl
        (fun ks r => if ks.any (fun k => k == r.series_id) then ks
                     else ks ++ [r.series_id]) ks).Nodup := by
  induction rows with
  | nil => intro ks h; exact h
  | cons r rest ih =>
    intro ks h
    rw [List.foldl_cons]
    exact ih _ (firstSeen_step_nodup ks r.series_id h)

/-- Membership in the first-seen fold is membership in the seed or in the
rows' series ids. -/
theorem firstSeen_fold_mem (rows : List valueData) :
    ∀ (ks : List Int) (i : Int),
      i ∈ rows.foldl
            (fun ks r => if ks.any (fun k => k == r.series_id) then ks
                         else ks ++ [r.series_id]) ks
        ↔ i ∈ ks ∨ i ∈ rows.map valueData.series_id := by
  induction rows with
  | nil => simp
  | cons r rest ih =>
    intro ks i
    rw [List.foldl_cons, ih]
    cases hany : ks.any (fun k => k == r.series_id)
    · simp only [Bool.false_eq_true, if_false]
      simp [List.mem_append]
      tauto
    · simp only [if_true]
      have hmem : r.series_id ∈ ks := by
        obtain ⟨k, hk, hkeq⟩ := List.any_eq_true.mp hany
        have : k = r.series_id := by simpa using hkeq
        exact this ▸ hk
      simp [List.mem_cons]
      constructor
      · tauto
      · rintro (h | rfl | h) <;> tauto

/-- Inserting a row appends its (timestamp, value) pair to exactly its own
series' group and leaves every other group unchanged. -/
theorem lookupGroup_groupInsert (acc : List (Int × List valueDataResponse))
    (r : valueData) (sid : Int) :
    lookupGroup (groupInsert acc r) sid
      = lookupGroup acc sid
        ++ (if sid == r.series_id then [⟨r.timestamp, r.value⟩] else []) := by
  unfold groupInsert lookupGroup
  cases hany : acc.any (fun p => p.1 == r.series_id)
  · simp only [Bool.false_eq_true, if_false]
    rw [List.find?_append]
    cases hsid : sid == r.series_id
    · have hone : ([(r.series_id, [(⟨r.timestamp, r.value⟩ : valueDataResponse)])].find?
          (fun p => p.1 == sid)) = none := by
        have : (r.series_id == sid) = false := by
          cases hrs : r.series_id == sid
          · rfl
          · have : r.series_id = sid := by simpa using hrs
            rw [this] at hsid
            simp at hsid
        simp [List.find?, this]
      rw [hone]
      simp
    · have heq : sid = r.series_id := by simpa using hsid
      have hnone : acc.find? (fun p => p.1 == sid) = none := by
        rw [List.find?_eq_none]
        intro p hp
        have := List.any_eq_false.mp (by rw [hany]) p hp
        rw [heq]
        simpa using this
      rw [hnone]
      simp [List.find?, heq]
  · simp only [if_true]
    rw [List.find?_map]
    have hcomp : ((fun p : Int × List valueDataResponse => p.1 == sid) ∘
        (fun p => if p.1 == r.series_id
                  then (p.1, p.2 ++ [(⟨r.timestamp, r.value⟩ : valueDataResponse)])
                  else p))
        = fun p : Int × List valueDataResponse => p.1 == sid := by
      funext q
      cases hq : q.1 == r.series_id <;> simp [Function.comp, hq]
    rw [hcomp]
    cases hf : acc.find? (fun p => p.1 == sid)
    · cases hsid : sid == r.series_id
      · simp
      · have heq : sid = r.series_id := by simpa using hsid
        obtain ⟨p, hp, hpeq⟩ := List.any_eq_true.mp hany
        have := List.find?_eq_none.mp hf p hp
        rw [heq] at this
        exact absurd hpeq this
    · rename_i q
      have hq1 : q.1 = sid := by
        have := List.find?_some hf
        simpa using this
      cases hq : q.1 == r.series_id
      · have hsid : (sid == r.series_id) = false := by
          rw [← hq1]; exact hq
        have hne : ¬(q.1 = r.series_id) := by simpa using hq
        simp [hq, hsid, hne]
      · have hsid : (sid == r.series_id) = true := by
          rw [← hq1]; exact hq
        have heq2 : q.1 = r.series_id := by simpa using hq
        simp [hq, hsid, heq2]

/-- The grouping fold collects, per series id, exactly the pairs of the rows
with that id in their original relative order. -/
theorem lookupGroup_fold (rows : List valueData) :
    ∀ (acc : List (Int × List valueDataResponse)) (sid : Int),
      lookupGroup (rows.foldl groupInsert acc) sid
        = lookupGroup acc sid
          ++ (rows.filter (fun r => sid == r.series_id)).map
              (fun r => ⟨r.timestamp, r.value⟩) := by
  induction rows with
  | nil => intro acc sid; simp
  | cons r rest ih =>
    intro acc sid
    rw [List.foldl_cons, ih, lookupGroup_groupInsert]
    cases hsid : sid == r.series_id
    · simp [List.filter_cons, hsid]
    · simp [List.filter_cons, hsid, List.append_assoc]

/-- In an accumulator with distinct keys, find? at a member's key returns
that member. -/
theorem find?_mem_of_nodup_keys (acc : List (Int × List valueDataResponse))
    (hnd : (acc.map Prod.fst).Nodup) (p : Int × List valueDataResponse)
    (hp : p ∈ acc) :
    acc.find? (fun q => q.1 == p.1) = some p := by
  induction acc with
  | nil => cases hp
  | cons a l ih =>
    rw [List.map_cons, List.nodup_cons] at hnd
    rcases List.mem_cons.mp hp with rfl | hpl
    · rw [List.find?_cons_of_pos _ (by simp)]
    · have hne : a.1 ≠ p.1 := by
        intro he
        exact hnd.1 (he ▸ List.mem_map.mpr ⟨p, hpl, rfl⟩)
      rw [List.find?_cons_of_neg _ (by simp [hne])]
      exact ih hnd.2 hpl

/-- C4: the grouping pass over a scan result R yields pairwise-distinct
group keys; a series id has a group exactly when it occurs in R; the keys
are in first-seen order; and each group holds exactly the (timestamp,
value) pairs of the rows of R with that series id, in their original
relative order. -/
theorem grouping_completeness (R : List valueData) :
    ((groupRowsBySeries R).map Prod.fst).Nodup ∧
    (∀ sid : Int, sid ∈ (groupRowsBySeries R).map Prod.fst
      ↔ sid ∈ R.map valueData.series_id) ∧
    (groupRowsBySeries R).map Prod.fst = firstSeenIds R ∧
    (∀ p ∈ groupRowsBySeries R,
      p.2 = (R.filter (fun r => p.1 == r.series_id)).map
              (fun r => ⟨r.timestamp, r.value⟩)) := by
  have hkeys : (groupRowsBySeries R).map Prod.fst = firstSeenIds R := by
    rw [groupRowsBySeries, groupRows_keys_fold R []]
    rfl
  have hnd : ((groupRowsBySeries R).map Prod.fst).Nodup := by
    rw [hkeys]
    exact firstSeen_fold_nodup R [] List.nodup_nil
  refine ⟨hnd, ?_, hkeys, ?_⟩
  · intro sid
    rw [hkeys, firstSeenIds, firstSeen_fold_mem R [] sid]
    simp
  · intro p hp
    have hfind := find?_mem_of_nodup_keys (groupRowsBySeries R) hnd p hp
    have hl : lookupGroup (groupRowsBySeries R) p.1 = p.2 := by
      rw [lookupGroup, hfind]
      rfl
    have hfold := lookupGroup_fold R [] p.1
    rw [groupRowsBySeries] at hl
    rw [hl] at hfold
    simpa [lookupGroup] using hfold

/-- Witness for C4 at a concrete input: the group of series 1 holds its two
rows in scan order. -/
theorem grouping_completeness_witness :
    ((1 : Int), [(⟨11, 1⟩ : valueDataResponse), ⟨13, 3⟩]).2
      = (rowsWitness.filter
          (fun r => ((1 : Int), [(⟨11, 1⟩ : valueDataResponse), ⟨13, 3⟩]).1 == r.series_id)).map
          (fun r => ⟨r.timestamp, r.value⟩) :=
  (grouping_completeness rowsWitness).2.2.2
    ((1 : Int), [(⟨11, 1⟩ : valueDataResponse), ⟨13, 3⟩]) (by decide)
